import Mathlib

/-!
Shallow embedding of `src/ultra/bulk2.py` (Ultraloader): the batch planner
(`download_query_data` / `create_batch_locators`), the download engine
(`a_get_query_data` / `pull_batches`, built on tenacity `AsyncRetrying` with
`retry_if_exception_type(httpx.ReadTimeout)`, `stop_after_attempt`,
`wait_exponential(multiplier=1, min=4, max=60)`), and the ingest uploader
(`create_ingest_job` / `load_ingest_job_data` / `ingest_job_data_batches`).

HTTP exchanges are modelled by oracles: a function from the index of the call
(or the attempt number) to the response the server returns.  File-system and
process effects are modelled explicitly (lists of written files, event traces,
an `Except` constructor for a raised exception or a process exit).
-/

namespace Ultraloader

/-- The `Batch` pydantic model (bulk2.py lines 37-50).  Pydantic fields
declared `Optional[str]` without a default, default to `None`. -/
structure Batch where
  base_path : String
  batch_number : Nat
  job_id : String
  batch_start : Option String := none
  batch_size : Nat
  api_version : String
  object : String
  file_name : Option String := none
  download_path : String := "./data"
  status : String := "NEW"
  message : Option String := none
  downloaded_file_path : Option String := none
  attempt_count : Nat := 0
deriving DecidableEq, Repr

/-- A plain HTTP response: status code plus decoded body. -/
structure HttpResp where
  status : Nat
  body : String
deriving DecidableEq, Repr

/-! ## Download engine: tenacity retry loop (bulk2.py lines 196-264) -/

/-- Outcome of one GET attempt inside the retry loop: either the request
raises `httpx.ReadTimeout` (the only exception class that is retried,
`retry_if_exception_type(httpx.ReadTimeout)`), or a response arrives. -/
inductive FetchAttempt where
  | timeout
  | resp (status : Nat) (content : String)
deriving DecidableEq, Repr

/-- Terminal outcome of the tenacity loop: success on some attempt, or
`RetryError` after the stop condition fired.  The `Nat` is the number of the
last attempt executed (`retry_state.attempt_number`, which the code copies
into `batch.attempt_count` on every attempt). -/
inductive RetryOutcome where
  | success (status : Nat) (content : String) (attempts : Nat)
  | retryError (attempts : Nat)
deriving DecidableEq, Repr

/-- Number of the last attempt recorded in a `RetryOutcome`. -/
def attemptsOf : RetryOutcome → Nat
  | .success _ _ a => a
  | .retryError a => a

/-- tenacity `wait_exponential(multiplier, max, exp_base = 2, min).__call__`:
`max(max(0, min), min(multiplier * exp_base ** (attempt_number - 1), max))`. -/
def wait_exponential (multiplier min_ max_ : Nat) (attempt_number : Nat) : Nat :=
  Nat.max (Nat.max 0 min_) (Nat.min (multiplier * 2 ^ (attempt_number - 1)) max_)

/-- One pass of `AsyncRetrying(retry=retry_if_exception_type(httpx.ReadTimeout),
stop=stop_after_attempt(m), wait=wait_exponential(multiplier=1, min=4, max=60))`
starting at attempt `k`: a response ends the loop; a `ReadTimeout` on attempt
`k` triggers `RetryError` when the stop condition `k >= m` holds, and otherwise
a wait of `wait_exponential 1 4 60 k` followed by attempt `k+1`.  `fuel` bounds
the recursion; `runRetry` supplies `m`, which is enough fuel for every path. -/
def runRetryAux (oracle : Nat → FetchAttempt) (m : Nat) :
    Nat → Nat → List Nat → RetryOutcome × List Nat
  | fuel, k, ws =>
    match oracle k with
    | .resp s c => (.success s c k, ws)
    | .timeout =>
      if m ≤ k then (.retryError k, ws)
      else
        match fuel with
        | 0 => (.retryError k, ws)
        | fuel' + 1 => runRetryAux oracle m fuel' (k + 1) (ws ++ [wait_exponential 1 4 60 k])

/-- The whole retry loop of `a_get_query_data`, returning the terminal outcome
together with the sequence of backoff waits performed between attempts. -/
def runRetry (oracle : Nat → FetchAttempt) (m : Nat) : RetryOutcome × List Nat :=
  runRetryAux oracle m m 1 []

/-- `int(os.getenv("SFDC_MAX_DOWNLOAD_ATTEMPTS", 20))` (bulk2.py line 200):
the attempt ceiling defaults to 20 and is overridden by the environment. -/
def defaultMaxAttempts (envValue : Option Nat) : Nat :=
  envValue.getD 20

/-- Stand-in for `str(e)` of the tenacity `RetryError` raised after exhaustion. -/
def retryErrorText : String := "RetryError[ReadTimeout]"

/-- Derived output file name `f"{batch.job_id}_{batch.batch_number}.csv"`. -/
def fileNameOf (b : Batch) : String :=
  b.job_id ++ "_" ++ toString b.batch_number ++ ".csv"

/-- `Path(data_directory, f"{job_id}_{batch_number}.csv")` under the batch's
configured `download_path`. -/
def filePathOf (b : Batch) : String :=
  b.download_path ++ "/" ++ fileNameOf b

/-- The `params` dict of the fetch GET (bulk2.py lines 225-231): `locator` is
`batch.batch_start` and the key is popped when the batch has no start cursor,
so the fetch call's cursor input is exactly `batch_start`. -/
def fetchLocatorParam (b : Batch) : Option String :=
  b.batch_start

/-- `a_get_query_data` (bulk2.py lines 196-264) for one batch, with the
server's per-attempt behaviour given by `oracle` and the attempt ceiling `m`.
Returns the mutated batch and the list of `(path, contents)` files written. -/
def a_get_query_data (b : Batch) (oracle : Nat → FetchAttempt) (m : Nat) :
    Batch × List (String × String) :=
  match (runRetry oracle m).1 with
  | .retryError a =>
    ({ b with
        status := "FAILED"
        attempt_count := a
        message := some ("Error occurred while downloading job data after : " ++ retryErrorText) },
     [])
  | .success s c a =>
    if s ≠ 200 ∧ s ≠ 201 then
      ({ b with
          status := "FAILED"
          attempt_count := a
          message := some ("Error occurred while downloading job data: " ++ c) },
       [])
    else
      ({ b with
          status := "COMPLETE"
          attempt_count := a
          message := some (filePathOf b ++ " download complete")
          downloaded_file_path := some (filePathOf b)
          file_name := some (fileNameOf b) },
       [(filePathOf b, c)])

/-- `pull_batches` (bulk2.py lines 267-273): every batch is processed
independently by `a_get_query_data`; batch `i` is driven by its own oracle. -/
def pull_batches (lots : List Batch) (oracles : List (Nat → FetchAttempt)) (m : Nat) :
    List (Batch × List (String × String)) :=
  (lots.zip oracles).map (fun p => a_get_query_data p.1 p.2 m)

/-! ## Batch planner (bulk2.py lines 83-160 and 276-342) -/

/-- Response to one HEAD `create_batch_locators` request: status code plus the
`sforce-locator` response header. -/
structure AdvanceResp where
  status : Nat
  locator : String
deriving DecidableEq, Repr

/-- The request parameters of one cursor-advance call, as recorded by the
planner trace: the `locator` query parameter (absent on the first call) and
`maxRecords`. -/
structure AdvanceCall where
  locator : Option String
  maxRecords : Nat
deriving DecidableEq, Repr

/-- Constant inputs of one planning run: job id, API version, the credential
instance URL, the job's object and the output directory. -/
structure PlanEnv where
  job_id : String
  version : String
  base_path : String
  object : String
  download_path : String
deriving DecidableEq, Repr

/-- How `download_query_data` terminates without a batch list: the `exit()`
call at `record_count == 0` (a raised `SystemExit`, exit status 0), or the
`Exception` raised by `create_batch_locators` on a non-200/201 response. -/
inductive PlanExit where
  | exitZero
  | advanceError (msg : String)
deriving DecidableEq, Repr

/-- `create_query_job` (bulk2.py lines 83-114): on a status other than 200/201
it only prints the response body to stderr (the `Bool` component records
whether that happened) and still returns `data.json()`; it never raises. -/
def create_query_job (resp : HttpResp) : Except String (String × Bool) :=
  .ok (resp.body, decide (resp.status ≠ 200 ∧ resp.status ≠ 201))

/-- `create_batch_locators` (bulk2.py lines 117-160), with the server's answer
to the `idx`-th advance call of the run given by `oracle idx`: raises on a
status other than 200/201, otherwise returns the `sforce-locator` header. -/
def create_batch_locators (oracle : Nat → AdvanceResp) (idx : Nat) : Except String String :=
  let data := oracle idx
  if data.status ≠ 200 ∧ data.status ≠ 201 then
    .error (toString data.status ++ ":Something went wrong to get batch locators")
  else
    .ok data.locator

/-- Python `range(start, stop, step)` for naturals and positive `step`. -/
def pyRange (start stop step : Nat) : List Nat :=
  if step = 0 then []
  else (List.range ((stop - start + step - 1) / step)).map (fun i => start + i * step)

/-- The `Batch(...)` constructor call of the planner (bulk2.py lines 296-304
and 310-319): remaining fields keep their pydantic defaults. -/
def mkPlanBatch (env : PlanEnv) (bn bs : Nat) (start : Option String) : Batch :=
  { base_path := env.base_path
    batch_number := bn
    job_id := env.job_id
    batch_start := start
    batch_size := bs
    api_version := env.version
    object := env.object
    download_path := env.download_path }

/-- The `for i in range(batch_size, record_count, batch_size)` loop of
`download_query_data` (bulk2.py lines 307-321).  `bn` is the current batch
number, which also counts the advance calls already made, so the call made in
this iteration is call `bn` of the run; `loc` is the locator most recently
returned.  Each iteration appends `Batch(batch_number=bn+1, batch_start=loc)`
and then advances the cursor; a raised advance error aborts the loop, and the
accumulated partial batch list is lost with it. -/
def planLoop (env : PlanEnv) (bs : Nat) (oracle : Nat → AdvanceResp) :
    List Nat → Nat → String → List Batch → List AdvanceCall →
    Except String (List Batch × List AdvanceCall)
  | [], _, _, lots, trace => .ok (lots, trace)
  | _ :: rest, bn, loc, lots, trace =>
    match create_batch_locators oracle bn with
    | .error e => .error e
    | .ok loc2 =>
      planLoop env bs oracle rest (bn + 1) loc2
        (lots ++ [mkPlanBatch env (bn + 1) bs (some loc)])
        (trace ++ [AdvanceCall.mk (some loc) bs])

/-- `download_query_data` planning (bulk2.py lines 276-342): on
`record_count == 0` the process exits; a zero `batch_size` is replaced by
`ceil(record_count / cpu_count)`; batch 1 is created with no cursor, then the
cursor is advanced once before the loop and once per loop iteration.  Returns
the ordered batch list and the trace of advance-call inputs. -/
def download_query_data (env : PlanEnv) (record_count batch_size cpu_count : Nat)
    (oracle : Nat → AdvanceResp) : Except PlanExit (List Batch × List AdvanceCall) :=
  if record_count = 0 then
    .error PlanExit.exitZero
  else
    let bs := if batch_size = 0 then (record_count + cpu_count - 1) / cpu_count else batch_size
    match create_batch_locators oracle 0 with
    | .error e => .error (PlanExit.advanceError e)
    | .ok loc =>
      match planLoop env bs oracle (pyRange bs record_count bs) 1 loc
          [mkPlanBatch env 1 bs none] [AdvanceCall.mk none bs] with
      | .error e => .error (PlanExit.advanceError e)
      | .ok r => .ok r

/-- The cursor inputs of the advance calls of a planning trace. -/
def advanceInputs (trace : List AdvanceCall) : List (Option String) :=
  trace.map AdvanceCall.locator

/-- The cursor inputs of the fetch calls the download engine performs for a
planned batch list (each batch is fetched with `locator = batch_start`). -/
def fetchInputs (lots : List Batch) : List (Option String) :=
  lots.map fetchLocatorParam

/-- How many advance or fetch calls of the run take the cursor `c` as input. -/
def cursorUses (lots : List Batch) (trace : List AdvanceCall) (c : String) : Nat :=
  (advanceInputs trace).count (some c) + (fetchInputs lots).count (some c)

/-! ## Ingest uploader (bulk2.py lines 375-522) -/

/-- Observable side effects of one `ingest_job_data_batches` run, in order:
`shutil.rmtree` / `mkdir` on the working directory, the `combine_files`
chunking step (with the chunk files it produced), and the three HTTP calls of
each chunk's job lifecycle (POST create, PUT upload, PATCH finalize with the
state sent). -/
inductive Ev where
  | rmtree (dir : String)
  | mkdir (dir : String)
  | chunk (files : List String)
  | post (object_name : String)
  | put (file_path : String)
  | patch (state : String)
deriving DecidableEq, Repr

/-- Whether an event is an HTTP request. -/
def evIsHttp : Ev → Bool
  | .post _ => true
  | .put _ => true
  | .patch _ => true
  | _ => false

/-- Response to one POST `create_ingest_job` request: status plus the job `id`
of the parsed response body. -/
structure CreateResp where
  status : Nat
  id : String
deriving DecidableEq, Repr

/-- Result of the external `combine_files` collaborator: status, message and
the list of chunk-file paths it wrote into the working directory. -/
structure FileTask where
  status : String
  message : String
  payload : List String
deriving DecidableEq, Repr

/-- The result dict of `load_ingest_job_data` (bulk2.py lines 442-456). -/
structure ChunkResult where
  state : String
  id : String
  url : String
  file_path : String
  message : String
  status_code : Nat
deriving DecidableEq, Repr

/-- The finalize state sent for an upload response status:
`"UploadComplete" if data.status_code in (200, 201) else "Aborted"`. -/
def stateOf (uploadStatus : Nat) : String :=
  if uploadStatus = 200 ∨ uploadStatus = 201 then "UploadComplete" else "Aborted"

/-- `create_ingest_job` (bulk2.py lines 375-410): for `operation == "upsert"`
with a missing or empty external-id field it raises a `RuntimeError` before
the POST; otherwise the POST is issued and the parsed body (its job id) is
returned even when the status is not 200/201 (which is only printed). -/
def create_ingest_job (object_name operation : String) (ext : Option String)
    (resp : CreateResp) : Except String (String × List Ev) :=
  if operation = "upsert" ∧ (ext = none ∨ ext = some "") then
    .error "external Id field name must be provided when performing upsert."
  else
    .ok (resp.id, [Ev.post object_name])

/-- `load_ingest_job_data` (bulk2.py lines 413-456): PUT the chunk as the
job's batch payload, then always PATCH the job to `UploadComplete` when the
upload status was 200/201 and to `Aborted` otherwise; the returned record
carries the source file path, the outcome message and the status code of the
finalize response. -/
def load_ingest_job_data (job_id file_path version : String)
    (uploadResp : HttpResp) (finalizeStatus : Nat) : ChunkResult × List Ev :=
  let query_path := "services/data/v" ++ version ++ "/jobs/ingest/" ++ job_id
  let message :=
    if uploadResp.status ≠ 200 ∧ uploadResp.status ≠ 201 then uploadResp.body
    else "Batch: " ++ file_path ++ " loaded."
  ({ state := stateOf uploadResp.status
     id := job_id
     url := query_path
     file_path := file_path
     message := message
     status_code := finalizeStatus },
   [Ev.put file_path, Ev.patch (stateOf uploadResp.status)])

/-- The `for file_path in file_task.payload` loop of `ingest_job_data_batches`
(bulk2.py lines 502-521): chunk `i` gets its own create / upload / finalize
responses; a raised create error aborts the loop. -/
def ingestLoop (object_name operation : String) (ext : Option String) (version : String)
    (creates : Nat → CreateResp) (uploads : Nat → HttpResp) (finalizes : Nat → Nat) :
    List String → Nat → List ChunkResult → List Ev →
    Except String (List ChunkResult) × List Ev
  | [], _, acc, evs => (.ok acc, evs)
  | fp :: rest, i, acc, evs =>
    match create_ingest_job object_name operation ext (creates i) with
    | .error e => (.error e, evs)
    | .ok (jid, evC) =>
      let r := load_ingest_job_data jid fp version (uploads i) (finalizes i)
      ingestLoop object_name operation ext version creates uploads finalizes
        rest (i + 1) (acc ++ [r.1]) (evs ++ evC ++ r.2)

/-- Working-directory preparation of `ingest_job_data_batches` (bulk2.py lines
472-477) on a directory state `(existsAsDir, contents)`: when the directory
exists it is removed recursively with `shutil.rmtree`, then recreated, so the
resulting state is an existing empty directory whatever it held before. -/
def prepare_working_directory (wd : String) (st : Bool × List String) :
    (Bool × List String) × List Ev :=
  ((true, []), (if st.1 then [Ev.rmtree wd] else []) ++ [Ev.mkdir wd])

/-- Python `str.lower()` for the ASCII operation names used here. -/
def pyLower (s : String) : String :=
  ⟨s.data.map Char.toLower⟩

/-- `ingest_job_data_batches` (bulk2.py lines 459-522): prepare the working
directory (default `Path(gettempdir(), object_name)`), run `combine_files`
(whose outcome `ft` places its chunk files in the working directory), abort if
chunking failed, then drive the per-chunk job lifecycle with
`operation.lower()`.  Returns the result, the ordered event trace and the
final working-directory state. -/
def ingest_job_data_batches (object_name operation : String) (ext : Option String)
    (working_directory : Option String) (tmpdir : String)
    (wdState : Bool × List String) (ft : FileTask)
    (creates : Nat → CreateResp) (uploads : Nat → HttpResp) (finalizes : Nat → Nat)
    (version : String) :
    Except String (List ChunkResult) × List Ev × (Bool × List String) :=
  let wd := working_directory.getD (tmpdir ++ "/" ++ object_name)
  let p := prepare_working_directory wd wdState
  let evs1 := p.2 ++ [Ev.chunk ft.payload]
  let wdAfter := (true, ft.payload)
  if ft.status ≠ "success" then
    (.error ("Combining files failed: " ++ ft.message), evs1, wdAfter)
  else
    let r := ingestLoop object_name (pyLower operation) ext version creates uploads finalizes
      ft.payload 0 [] evs1
    (r.1, r.2, wdAfter)

/-- Closed form of the results `ingestLoop` accumulates from chunk `i` on. -/
def ingestResultsFrom (creates : Nat → CreateResp) (uploads : Nat → HttpResp)
    (finalizes : Nat → Nat) (version : String) :
    List String → Nat → List ChunkResult
  | [], _ => []
  | fp :: rest, i =>
    (load_ingest_job_data (creates i).id fp version (uploads i) (finalizes i)).1 ::
      ingestResultsFrom creates uploads finalizes version rest (i + 1)

/-- Closed form of the events `ingestLoop` emits from chunk `i` on. -/
def ingestEvsFrom (object_name : String) (uploads : Nat → HttpResp) :
    List String → Nat → List Ev
  | [], _ => []
  | fp :: rest, i =>
    Ev.post object_name :: Ev.put fp :: Ev.patch (stateOf (uploads i).status) ::
      ingestEvsFrom object_name uploads rest (i + 1)

/-! ## Concrete fixtures used by witnesses and counterexamples -/

/-- A concrete planning environment. -/
def env0 : PlanEnv :=
  { job_id := "750XX0000004C9h"
    version := "53.0"
    base_path := "https://example.my.salesforce.com"
    object := "Account"
    download_path := "./data" }

/-- An advance oracle that always answers 200 with pairwise distinct
locators `L0`, `L1`, ... -/
def oracleL : Nat → AdvanceResp :=
  fun i => { status := 200, locator := "L" ++ toString i }

/-- An advance oracle whose second call (index 1) answers 500. -/
def oracleBad : Nat → AdvanceResp :=
  fun i => if i = 0 then { status := 200, locator := "LA" } else { status := 500, locator := "LB" }

/-- A fetch oracle that times out on every attempt. -/
def oracleTimeout : Nat → FetchAttempt :=
  fun _ => FetchAttempt.timeout

/-- A fetch oracle that times out on attempts 1 and 2 and answers 200 with a
payload on attempt 3 and later. -/
def oracleThird : Nat → FetchAttempt :=
  fun k => if k ≤ 2 then FetchAttempt.timeout else FetchAttempt.resp 200 "Id,Name\n1,Ada"

/-- A concrete planned batch. -/
def batch0 : Batch :=
  mkPlanBatch env0 1 10000 none

/-- A second concrete planned batch. -/
def batch1 : Batch :=
  mkPlanBatch env0 2 10000 (some "L0")

/-- A successful chunking outcome with a single chunk file. -/
def ftOne : FileTask :=
  { status := "success", message := "", payload := ["c0.csv"] }

/-- A successful chunking outcome with two chunk files. -/
def ftTwo : FileTask :=
  { status := "success", message := "", payload := ["c0.csv", "c1.csv"] }

/-- Create-ingest-job responses with distinct job ids `J0`, `J1`, ... -/
def createsJ : Nat → CreateResp :=
  fun i => { status := 201, id := "J" ++ toString i }

/-- Upload responses: chunk 0 succeeds with 201, later chunks fail with 400. -/
def uploadsMix : Nat → HttpResp :=
  fun i => if i = 0 then { status := 201, body := "" } else { status := 400, body := "bad chunk" }

/-- Finalize responses: always 200. -/
def finalizes200 : Nat → Nat :=
  fun _ => 200

/-! ## Retry-loop lemmas -/

/-- Full characterisation of the tenacity loop from attempt `j` on, given
enough fuel: there is a last attempt `a`, every attempt before `a` timed out,
a timeout at `a` means the ceiling was reached, the outcome is decided by
`oracle a`, and the backoff waits are `wait_exponential 1 4 60` at the
attempt numbers `j, ..., a-1`. -/
theorem runRetryAux_spec (oracle : Nat → FetchAttempt) (m : Nat) :
    ∀ (fuel j : Nat) (ws : List Nat), 1 ≤ j → j ≤ m → m - j ≤ fuel →
    ∃ a, j ≤ a ∧ a ≤ m ∧
      (∀ t, j ≤ t → t < a → oracle t = FetchAttempt.timeout) ∧
      (oracle a = FetchAttempt.timeout → a = m) ∧
      runRetryAux oracle m fuel j ws =
        ((match oracle a with
          | FetchAttempt.resp s c => RetryOutcome.success s c a
          | FetchAttempt.timeout => RetryOutcome.retryError a),
         ws ++ (List.range' j (a - j)).map (wait_exponential 1 4 60)) := by
  intro fuel
  induction fuel with
  | zero =>
    intro j ws h1 hjm hfuel
    have hjm' : j = m := by omega
    subst hjm'
    refine ⟨j, le_refl j, le_refl j, ?_, fun _ => rfl, ?_⟩
    · intro t ht1 ht2; omega
    · rw [runRetryAux]
      cases h : oracle j with
      | resp s c => simp [h]
      | timeout => simp [h]
  | succ fuel ih =>
    intro j ws h1 hjm hfuel
    cases h : oracle j with
    | resp s c =>
      refine ⟨j, le_refl j, hjm, ?_, ?_, ?_⟩
      · intro t ht1 ht2; omega
      · intro hto; rw [h] at hto; cases hto
      · rw [runRetryAux]; simp [h]
    | timeout =>
      by_cases hmj : m ≤ j
      · have hjm' : j = m := by omega
        subst hjm'
        refine ⟨j, le_refl j, le_refl j, ?_, fun _ => rfl, ?_⟩
        · intro t ht1 ht2; omega
        · rw [runRetryAux]; simp [h, hmj]
      · obtain ⟨a, ha1, ha2, hpre, hlast, heq⟩ :=
          ih (j + 1) (ws ++ [wait_exponential 1 4 60 j]) (by omega) (by omega) (by omega)
        refine ⟨a, by omega, ha2, ?_, hlast, ?_⟩
        · intro t ht1 ht2
          rcases Nat.eq_or_lt_of_le ht1 with he | hl
          · rw [← he]; exact h
          · exact hpre t (by omega) ht2
        · rw [runRetryAux]
          simp only [h, hmj, if_false]
          rw [heq]
          have hstep : a - j = (a - (j + 1)) + 1 := by omega
          rw [hstep, List.range'_succ]
          simp [List.append_assoc]

/-- `runRetry` characterisation starting from attempt 1. -/
theorem runRetry_spec (oracle : Nat → FetchAttempt) (m : Nat) (hm : 1 ≤ m) :
    ∃ a, 1 ≤ a ∧ a ≤ m ∧
      (∀ t, 1 ≤ t → t < a → oracle t = FetchAttempt.timeout) ∧
      (oracle a = FetchAttempt.timeout → a = m) ∧
      runRetry oracle m =
        ((match oracle a with
          | FetchAttempt.resp s c => RetryOutcome.success s c a
          | FetchAttempt.timeout => RetryOutcome.retryError a),
         (List.range' 1 (a - 1)).map (wait_exponential 1 4 60)) := by
  obtain ⟨a, h1, h2, h3, h4, h5⟩ := runRetryAux_spec oracle m m 1 [] (le_refl 1) hm (by omega)
  exact ⟨a, h1, h2, h3, h4, by simpa [runRetry] using h5⟩

/-- The wait the code performs after a failed attempt `k`, in closed form. -/
theorem wait_exponential_eq (k : Nat) :
    wait_exponential 1 4 60 k = Nat.max 4 (Nat.min 60 (2 ^ (k - 1))) := by
  simp [wait_exponential, Nat.min_comm]

/-- When every attempt up to the ceiling times out, `a_get_query_data` ends in
the `RetryError` branch: FAILED, `attempt_count = m`, the retry-exhaustion
message, and no file written. -/
theorem a_get_query_data_exhausted (b : Batch) (oracle : Nat → FetchAttempt) (m : Nat)
    (hm : 1 ≤ m) (hto : ∀ k, 1 ≤ k → k ≤ m → oracle k = FetchAttempt.timeout) :
    a_get_query_data b oracle m =
      ({ b with
          status := "FAILED"
          attempt_count := m
          message := some ("Error occurred while downloading job data after : " ++ retryErrorText) },
       []) := by
  obtain ⟨a, ha1, ham, hpre, hlast, heq⟩ := runRetry_spec oracle m hm
  have hta : oracle a = FetchAttempt.timeout := hto a ha1 ham
  have ham' : a = m := hlast hta
  subst ham'
  unfold a_get_query_data
  rw [heq]
  simp [hta]

/-- Claim C2, counterexample: the claimed schedule says the wait after attempt
`k` is `min(60, 4 * 2^(k-1))`, i.e. waits `[4, 8]` for a run whose first two
attempts time out; the code (tenacity `wait_exponential(multiplier=1, min=4,
max=60)`) actually waits `[4, 4]`, because 4 is the lower clamp, not the
multiplier. -/
theorem claimC2_counterexample :
    (runRetry oracleTimeout 3).2 ≠
      (List.range' 1 2).map (fun k => Nat.min 60 (4 * 2 ^ (k - 1))) := by
  decide

/-- Claim C2, amended: during download only read-timeout failures are retried,
and after a failed attempt `k` the worker waits
`max(4, min(60, 2^(k-1)))` time units (tenacity `wait_exponential` with
multiplier 1, lower clamp 4, upper clamp 60), with retries bounded by the
attempt ceiling (default 20, overridable via the environment variable). -/
theorem claimC2_amended (oracle : Nat → FetchAttempt) (m : Nat) (hm : 1 ≤ m) :
    (∀ k, wait_exponential 1 4 60 k = Nat.max 4 (Nat.min 60 (2 ^ (k - 1)))) ∧
    defaultMaxAttempts none = 20 ∧
    (∀ n, defaultMaxAttempts (some n) = n) ∧
    ∃ a, 1 ≤ a ∧ a ≤ m ∧
      attemptsOf (runRetry oracle m).1 = a ∧
      (∀ t, 1 ≤ t → t < a → oracle t = FetchAttempt.timeout) ∧
      (runRetry oracle m).2 = (List.range' 1 (a - 1)).map (wait_exponential 1 4 60) ∧
      ((∃ s c, oracle a = FetchAttempt.resp s c ∧
          (runRetry oracle m).1 = RetryOutcome.success s c a) ∨
       (oracle a = FetchAttempt.timeout ∧ a = m ∧
          (runRetry oracle m).1 = RetryOutcome.retryError m)) := by
  refine ⟨wait_exponential_eq, rfl, fun n => rfl, ?_⟩
  obtain ⟨a, h1, h2, h3, h4, h5⟩ := runRetry_spec oracle m hm
  refine ⟨a, h1, h2, ?_, h3, ?_, ?_⟩
  · rw [h5]; cases h : oracle a <;> simp [attemptsOf, h]
  · rw [h5]
  · cases h : oracle a with
    | timeout =>
      exact Or.inr ⟨rfl, h4 h, by
        have ham := h4 h
        rw [ham] at h
        rw [h5, ham]
        simp [h]⟩
    | resp s c =>
      exact Or.inl ⟨s, c, rfl, by rw [h5]; simp [h]⟩

/-- Claim C2, amended, witness at `oracle = oracleTimeout`, `m = 20`. -/
theorem claimC2_amended_witness :
    (∀ k, wait_exponential 1 4 60 k = Nat.max 4 (Nat.min 60 (2 ^ (k - 1)))) ∧
    defaultMaxAttempts none = 20 ∧
    (∀ n, defaultMaxAttempts (some n) = n) ∧
    ∃ a, 1 ≤ a ∧ a ≤ 20 ∧
      attemptsOf (runRetry oracleTimeout 20).1 = a ∧
      (∀ t, 1 ≤ t → t < a → oracleTimeout t = FetchAttempt.timeout) ∧
      (runRetry oracleTimeout 20).2 = (List.range' 1 (a - 1)).map (wait_exponential 1 4 60) ∧
      ((∃ s c, oracleTimeout a = FetchAttempt.resp s c ∧
          (runRetry oracleTimeout 20).1 = RetryOutcome.success s c a) ∨
       (oracleTimeout a = FetchAttempt.timeout ∧ a = 20 ∧
          (runRetry oracleTimeout 20).1 = RetryOutcome.retryError 20)) :=
  claimC2_amended oracleTimeout 20 (by decide)

/-- Claim C3: a batch whose every fetch attempt up to the ceiling raises a
read timeout ends FAILED with `attempt_count` equal to the ceiling, a message
recording the retry-exhaustion cause, and no file written; every sibling
batch's result is exactly `a_get_query_data` of its own batch and oracle,
unaffected by the failing batch. -/
theorem claimC3 (lots : List Batch) (oracles : List (Nat → FetchAttempt)) (m i : Nat)
    (hm : 1 ≤ m) (hi : i < lots.length) (hio : i < oracles.length)
    (hto : ∀ k, 1 ≤ k → k ≤ m → oracles.get ⟨i, hio⟩ k = FetchAttempt.timeout) :
    (pull_batches lots oracles m).length = min lots.length oracles.length ∧
    (∀ hir : i < (pull_batches lots oracles m).length,
      ((pull_batches lots oracles m).get ⟨i, hir⟩).1.status = "FAILED" ∧
      ((pull_batches lots oracles m).get ⟨i, hir⟩).1.attempt_count = m ∧
      ((pull_batches lots oracles m).get ⟨i, hir⟩).1.message =
        some ("Error occurred while downloading job data after : " ++ retryErrorText) ∧
      ((pull_batches lots oracles m).get ⟨i, hir⟩).2 = []) ∧
    (∀ j (hjb : j < lots.length) (hjo : j < oracles.length)
        (hjr : j < (pull_batches lots oracles m).length), j ≠ i →
      (pull_batches lots oracles m).get ⟨j, hjr⟩ =
        a_get_query_data (lots.get ⟨j, hjb⟩) (oracles.get ⟨j, hjo⟩) m) := by
  have hget : ∀ j (hjb : j < lots.length) (hjo : j < oracles.length)
      (hjr : j < (pull_batches lots oracles m).length),
      (pull_batches lots oracles m).get ⟨j, hjr⟩ =
        a_get_query_data (lots.get ⟨j, hjb⟩) (oracles.get ⟨j, hjo⟩) m := by
    intro j hjb hjo hjr
    simp [pull_batches, List.get_eq_getElem, List.getElem_map, List.getElem_zip]
  refine ⟨by simp [pull_batches], ?_, fun j hjb hjo hjr _ => hget j hjb hjo hjr⟩
  intro hir
  rw [hget i hi hio hir, a_get_query_data_exhausted _ _ _ hm hto]
  exact ⟨rfl, rfl, rfl, rfl⟩

/-- Claim C3, witness: two batches, the first driven by an all-timeout oracle,
the second by a responsive oracle, ceiling 20. -/
theorem claimC3_witness :
    (pull_batches [batch0, batch1] [oracleTimeout, oracleThird] 20).length =
      min [batch0, batch1].length [oracleTimeout, oracleThird].length ∧
    (∀ hir : 0 < (pull_batches [batch0, batch1] [oracleTimeout, oracleThird] 20).length,
      ((pull_batches [batch0, batch1] [oracleTimeout, oracleThird] 20).get ⟨0, hir⟩).1.status = "FAILED" ∧
      ((pull_batches [batch0, batch1] [oracleTimeout, oracleThird] 20).get ⟨0, hir⟩).1.attempt_count = 20 ∧
      ((pull_batches [batch0, batch1] [oracleTimeout, oracleThird] 20).get ⟨0, hir⟩).1.message =
        some ("Error occurred while downloading job data after : " ++ retryErrorText) ∧
      ((pull_batches [batch0, batch1] [oracleTimeout, oracleThird] 20).get ⟨0, hir⟩).2 = []) ∧
    (∀ j (hjb : j < [batch0, batch1].length) (hjo : j < [oracleTimeout, oracleThird].length)
        (hjr : j < (pull_batches [batch0, batch1] [oracleTimeout, oracleThird] 20).length), j ≠ 0 →
      (pull_batches [batch0, batch1] [oracleTimeout, oracleThird] 20).get ⟨j, hjr⟩ =
        a_get_query_data ([batch0, batch1].get ⟨j, hjb⟩)
          ([oracleTimeout, oracleThird].get ⟨j, hjo⟩) 20) :=
  claimC3 [batch0, batch1] [oracleTimeout, oracleThird] 20 0 (by decide) (by decide) (by decide)
    (fun k hk1 hk2 => rfl)

/-- Claim C4: a batch whose attempts `1..k-1` time out and whose attempt `k`
(within the ceiling) returns a 200/201 response ends COMPLETE with
`attempt_count = k`, writes exactly one file at
`download_path/<job_id>_<batch_number>.csv` whose contents equal the response
payload, and records `downloaded_file_path` and `file_name` on the batch. -/
theorem claimC4 (b : Batch) (oracle : Nat → FetchAttempt) (m k s : Nat) (c : String)
    (hk1 : 1 ≤ k) (hkm : k ≤ m)
    (hpre : ∀ t, 1 ≤ t → t < k → oracle t = FetchAttempt.timeout)
    (hk : oracle k = FetchAttempt.resp s c) (h2 : s = 200 ∨ s = 201) :
    a_get_query_data b oracle m =
      ({ b with
          status := "COMPLETE"
          attempt_count := k
          message := some (filePathOf b ++ " download complete")
          downloaded_file_path := some (filePathOf b)
          file_name := some (fileNameOf b) },
       [(filePathOf b, c)]) := by
  obtain ⟨a, ha1, ham, hpra, hlast, heq⟩ := runRetry_spec oracle m (le_trans hk1 hkm)
  have hak : a = k := by
    rcases Nat.lt_trichotomy a k with h | h | h
    · have hta := hpre a ha1 h
      have := hlast hta
      omega
    · exact h
    · have hx := hpra k hk1 h
      rw [hk] at hx
      cases hx
  subst hak
  unfold a_get_query_data
  rw [heq]
  simp only [hk]
  rcases h2 with h2 | h2 <;> subst h2 <;> simp

/-- Claim C4, witness: success on attempt 3 of 20 with payload
`"Id,Name\n1,Ada"`. -/
theorem claimC4_witness :
    a_get_query_data batch0 oracleThird 20 =
      ({ batch0 with
          status := "COMPLETE"
          attempt_count := 3
          message := some (filePathOf batch0 ++ " download complete")
          downloaded_file_path := some (filePathOf batch0)
          file_name := some (fileNameOf batch0) },
       [(filePathOf batch0, "Id,Name\n1,Ada")]) :=
  claimC4 batch0 oracleThird 20 3 200 "Id,Name\n1,Ada" (by decide) (by decide)
    (fun t ht1 ht2 => by
      simp only [oracleThird]
      rw [if_pos (by omega)])
    rfl (Or.inl rfl)

/-! ## Planner lemmas -/

/-- A 200/201 advance response makes `create_batch_locators` return the
`sforce-locator` header. -/
theorem create_batch_locators_ok (oracle : Nat → AdvanceResp) (idx : Nat)
    (h : (oracle idx).status = 200 ∨ (oracle idx).status = 201) :
    create_batch_locators oracle idx = .ok (oracle idx).locator := by
  unfold create_batch_locators
  rcases h with h | h <;> simp [h]

/-- Any other advance response makes `create_batch_locators` raise. -/
theorem create_batch_locators_err (oracle : Nat → AdvanceResp) (idx : Nat)
    (h : ¬((oracle idx).status = 200 ∨ (oracle idx).status = 201)) :
    create_batch_locators oracle idx =
      .error (toString (oracle idx).status ++ ":Something went wrong to get batch locators") := by
  unfold create_batch_locators
  rw [if_pos]
  push_neg at h
  exact h

/-- When every advance call answers 200/201, the planning loop started at
batch number `bn` with the locator returned by call `bn - 1` appends one batch
and one trace entry per iteration, in closed form. -/
theorem planLoop_ok (env : PlanEnv) (bs : Nat) (oracle : Nat → AdvanceResp)
    (hok : ∀ i, (oracle i).status = 200 ∨ (oracle i).status = 201) :
    ∀ (iters : List Nat) (bn : Nat) (lots : List Batch) (trace : List AdvanceCall), 1 ≤ bn →
    planLoop env bs oracle iters bn ((oracle (bn - 1)).locator) lots trace =
      .ok (lots ++ (List.range iters.length).map
            (fun j => mkPlanBatch env (bn + 1 + j) bs (some ((oracle (bn - 1 + j)).locator))),
           trace ++ (List.range iters.length).map
            (fun j => AdvanceCall.mk (some ((oracle (bn - 1 + j)).locator)) bs)) := by
  intro iters
  induction iters with
  | nil =>
    intro bn lots trace hbn
    simp [planLoop]
  | cons it rest ih =>
    intro bn lots trace hbn
    rw [planLoop]
    simp only [create_batch_locators_ok oracle bn (hok bn)]
    have hbn' : bn + 1 - 1 = bn := by omega
    have ih' := ih (bn + 1)
      (lots ++ [mkPlanBatch env (bn + 1) bs (some ((oracle (bn - 1)).locator))])
      (trace ++ [AdvanceCall.mk (some ((oracle (bn - 1)).locator)) bs]) (by omega)
    rw [hbn'] at ih'
    rw [ih']
    congr 1
    congr 1
    · rw [List.length_cons, List.range_succ_eq_map, List.map_cons, List.map_map]
      simp only [Nat.add_zero]
      rw [List.append_assoc, List.singleton_append]
      congr 1
      congr 1
      refine List.map_congr_left (fun j hj => ?_)
      simp only [Function.comp]
      have e1 : bn + 1 + 1 + j = bn + 1 + (j + 1) := by omega
      have e2 : bn + j = bn - 1 + (j + 1) := by omega
      rw [e1, e2]
    · rw [List.length_cons, List.range_succ_eq_map, List.map_cons, List.map_map]
      simp only [Nat.add_zero]
      rw [List.append_assoc, List.singleton_append]
      congr 1
      congr 1
      refine List.map_congr_left (fun j hj => ?_)
      simp only [Function.comp]
      have e2 : bn + j = bn - 1 + (j + 1) := by omega
      rw [e2]

/-- When advance calls `bn, ..., bn + j - 1` answer 200/201 and call `bn + j`
does not, the planning loop aborts with the raised advance error, losing the
partial batch list. -/
theorem planLoop_err (env : PlanEnv) (bs : Nat) (oracle : Nat → AdvanceResp) :
    ∀ (iters : List Nat) (j bn : Nat) (loc : String)
      (lots : List Batch) (trace : List AdvanceCall),
    j < iters.length →
    (∀ t, t < j → (oracle (bn + t)).status = 200 ∨ (oracle (bn + t)).status = 201) →
    ¬((oracle (bn + j)).status = 200 ∨ (oracle (bn + j)).status = 201) →
    planLoop env bs oracle iters bn loc lots trace =
      .error (toString (oracle (bn + j)).status ++ ":Something went wrong to get batch locators") := by
  intro iters
  induction iters with
  | nil =>
    intro j bn loc lots trace hj
    simp at hj
  | cons it rest ih =>
    intro j bn loc lots trace hj hpre hbad
    cases j with
    | zero =>
      rw [planLoop, create_batch_locators_err oracle bn (by simpa using hbad)]
      rfl
    | succ j =>
      have h0 : (oracle (bn + 0)).status = 200 ∨ (oracle (bn + 0)).status = 201 :=
        hpre 0 (by omega)
      rw [planLoop]
      simp only [create_batch_locators_ok oracle bn (by simpa using h0)]
      have e : bn + (j + 1) = bn + 1 + j := by omega
      rw [e] at hbad ⊢
      refine ih j (bn + 1) _ _ _ (by simpa using hj) ?_ hbad
      intro t ht
      have := hpre (t + 1) (by omega)
      have e2 : bn + (t + 1) = bn + 1 + t := by omega
      rwa [e2] at this

/-- Length of the planner's `range(batch_size, record_count, batch_size)`. -/
theorem pyRange_len (bs rc : Nat) (hbs : 0 < bs) :
    (pyRange bs rc bs).length = (rc - 1) / bs := by
  unfold pyRange
  rw [if_neg (by omega)]
  rw [List.length_map, List.length_range]
  rcases Nat.le_total bs rc with h | h
  · congr 1
    omega
  · have h1 : rc - bs = 0 := by omega
    rw [h1]
    rw [Nat.div_eq_of_lt (by omega), Nat.div_eq_of_lt (by omega)]

/-- Ceiling arithmetic: for positive `rc` and `bs`,
`1 + (rc - 1) / bs = ceil(rc / bs) = (rc + bs - 1) / bs`. -/
theorem ceil_batches (rc bs : Nat) (hrc : 0 < rc) (hbs : 0 < bs) :
    (rc - 1) / bs + 1 = (rc + bs - 1) / bs := by
  have e : rc + bs - 1 = (rc - 1) + bs := by omega
  rw [e, Nat.add_div_right _ hbs]

/-- Closed form of a fully successful planning run: batch 1 with no cursor
followed by one batch per loop iteration, batch `j + 2` carrying the locator
returned by advance call `j`; the trace records one advance call per batch,
call `k` taking batch `k`'s cursor (0-based) as input. -/
theorem download_query_data_closed (env : PlanEnv) (rc bs cpu : Nat)
    (oracle : Nat → AdvanceResp) (hrc : 0 < rc) (hbs : 0 < bs)
    (hok : ∀ i, (oracle i).status = 200 ∨ (oracle i).status = 201) :
    download_query_data env rc bs cpu oracle =
      .ok (mkPlanBatch env 1 bs none ::
            (List.range ((rc - 1) / bs)).map
              (fun j => mkPlanBatch env (j + 2) bs (some ((oracle j).locator))),
           AdvanceCall.mk none bs ::
            (List.range ((rc - 1) / bs)).map
              (fun j => AdvanceCall.mk (some ((oracle j).locator)) bs)) := by
  unfold download_query_data
  rw [if_neg (by omega)]
  simp only [if_neg (by omega : ¬ bs = 0)]
  simp only [create_batch_locators_ok oracle 0 (hok 0)]
  have hpl := planLoop_ok env bs oracle hok (pyRange bs rc bs) 1
    [mkPlanBatch env 1 bs none] [AdvanceCall.mk none bs] (le_refl 1)
  simp only [Nat.sub_self, Nat.zero_add] at hpl
  simp only [hpl]
  rw [pyRange_len bs rc hbs]
  simp only [List.singleton_append]
  congr 2
  congr 1
  refine List.map_congr_left (fun j hj => ?_)
  have e1 : 1 + 1 + j = j + 2 := by omega
  rw [e1]

/-- Claim C1: for positive record count and batch size (and a planning run in
which every advance call succeeds), planning returns exactly
`ceil(recordCount / batchSize)` batch descriptors, numbered `1..N` ascending;
batch 1's cursor is absent; and for `k > 0` (0-based index `k`), advance call
`k - 1` took batch `k - 1`'s cursor and the batch size as input, and batch
`k`'s cursor is the locator that call returned. -/
theorem claimC1 (env : PlanEnv) (rc bs cpu : Nat) (oracle : Nat → AdvanceResp)
    (hrc : 0 < rc) (hbs : 0 < bs)
    (hok : ∀ i, (oracle i).status = 200 ∨ (oracle i).status = 201) :
    ∃ (lots : List Batch) (trace : List AdvanceCall),
      download_query_data env rc bs cpu oracle = .ok (lots, trace) ∧
      lots.length = (rc + bs - 1) / bs ∧
      trace.length = lots.length ∧
      (∀ i (h : i < lots.length), (lots.get ⟨i, h⟩).batch_number = i + 1) ∧
      (∀ h0 : 0 < lots.length, (lots.get ⟨0, h0⟩).batch_start = none) ∧
      (∀ k (hk : k < lots.length) (hk1 : 1 ≤ k)
          (hkp : k - 1 < lots.length) (hkt : k - 1 < trace.length),
        trace.get ⟨k - 1, hkt⟩ = AdvanceCall.mk ((lots.get ⟨k - 1, hkp⟩).batch_start) bs ∧
        (lots.get ⟨k, hk⟩).batch_start = some ((oracle (k - 1)).locator)) := by
  refine ⟨_, _, download_query_data_closed env rc bs cpu oracle hrc hbs hok, ?_, ?_, ?_, ?_, ?_⟩
  · simp [ceil_batches rc bs hrc hbs]
  · simp
  · intro i h
    cases i with
    | zero => rfl
    | succ i =>
      simp only [List.get_eq_getElem, List.getElem_cons_succ, List.getElem_map,
        List.getElem_range]
      rfl
  · intro h0
    rfl
  · intro k hk hk1 hkp hkt
    cases k with
    | zero => omega
    | succ k =>
      simp only [Nat.add_sub_cancel]
      constructor
      · cases k with
        | zero => rfl
        | succ k =>
          simp only [List.get_eq_getElem, List.getElem_cons_succ, List.getElem_map,
            List.getElem_range, Nat.add_sub_cancel]
          rfl
      · simp only [List.get_eq_getElem, List.getElem_cons_succ, List.getElem_map,
          List.getElem_range]
        rfl

/-- Claim C1, witness: `recordCount = 25000`, `batchSize = 10000` gives 3
batches with cursors `none`, `L0`, `L1`. -/
theorem claimC1_witness :
    ∃ (lots : List Batch) (trace : List AdvanceCall),
      download_query_data env0 25000 10000 4 oracleL = .ok (lots, trace) ∧
      lots.length = (25000 + 10000 - 1) / 10000 ∧
      trace.length = lots.length ∧
      (∀ i (h : i < lots.length), (lots.get ⟨i, h⟩).batch_number = i + 1) ∧
      (∀ h0 : 0 < lots.length, (lots.get ⟨0, h0⟩).batch_start = none) ∧
      (∀ k (hk : k < lots.length) (hk1 : 1 ≤ k)
          (hkp : k - 1 < lots.length) (hkt : k - 1 < trace.length),
        trace.get ⟨k - 1, hkt⟩ = AdvanceCall.mk ((lots.get ⟨k - 1, hkp⟩).batch_start) 10000 ∧
        (lots.get ⟨k, hk⟩).batch_start = some ((oracleL (k - 1)).locator)) :=
  claimC1 env0 25000 10000 4 oracleL (by decide) (by decide) (fun i => Or.inl rfl)

/-- Claim C5, counterexample: at `record_count = 0` the code prints a notice
and calls `exit()` — a raised `SystemExit` that terminates the process
(modelled as `PlanExit.exitZero`) — so planning does not return an empty
batch list (or any value) to its caller. -/
theorem claimC5_counterexample :
    download_query_data env0 0 10000 4 oracleL = .error PlanExit.exitZero ∧
    (download_query_data env0 0 10000 4 oracleL).toOption ≠ some ([], []) := by
  exact ⟨rfl, by decide⟩

/-- Claim C5, amended: when the record count is 0 the function makes no
advance or fetch call (the result does not depend on the oracle at all) and
terminates the process via `exit()` after printing a notice, instead of
returning an empty batch list to the caller. -/
theorem claimC5_amended (env : PlanEnv) (bs cpu : Nat) (oracle : Nat → AdvanceResp) :
    download_query_data env 0 bs cpu oracle = .error PlanExit.exitZero :=
  rfl

/-- Claim C6, counterexample: `create_query_job` on a 400 response does not
raise — it prints the body to stderr (the `true` flag) and returns the parsed
body — so a non-2xx/201 on the query-job create call is not fatal. -/
theorem claimC6_counterexample :
    create_query_job { status := 400, body := "Bad request" } =
      .ok ("Bad request", true) :=
  rfl

/-- Claim C6, amended: during planning, a non-2xx/201 response to a
cursor-advance call is fatal — it raises and aborts the run with no partial
batch list — but a non-2xx/201 response to the query-job create call is not:
`create_query_job` only prints the body to stderr and returns the parsed
response. -/
theorem claimC6_amended :
    (∀ resp : HttpResp,
      create_query_job resp = .ok (resp.body, decide (resp.status ≠ 200 ∧ resp.status ≠ 201))) ∧
    (∀ (env : PlanEnv) (rc bs cpu : Nat) (oracle : Nat → AdvanceResp) (i : Nat),
      0 < rc → 0 < bs → i ≤ (rc - 1) / bs →
      (∀ t, t < i → (oracle t).status = 200 ∨ (oracle t).status = 201) →
      ¬((oracle i).status = 200 ∨ (oracle i).status = 201) →
      download_query_data env rc bs cpu oracle =
        .error (PlanExit.advanceError
          (toString (oracle i).status ++ ":Something went wrong to get batch locators"))) := by
  refine ⟨fun resp => rfl, ?_⟩
  intro env rc bs cpu oracle i hrc hbs hi hpre hbad
  unfold download_query_data
  rw [if_neg (by omega)]
  simp only [if_neg (by omega : ¬ bs = 0)]
  cases i with
  | zero =>
    rw [create_batch_locators_err oracle 0 hbad]
  | succ i =>
    simp only [create_batch_locators_ok oracle 0 (hpre 0 (by omega))]
    have herr := planLoop_err env bs oracle (pyRange bs rc bs) i 1
      ((oracle 0).locator) [mkPlanBatch env 1 bs none] [AdvanceCall.mk none bs]
      (by rw [pyRange_len bs rc hbs]; omega) ?_ ?_
    · have e : 1 + i = i + 1 := by omega
      rw [e] at herr
      rw [herr]
    · intro t ht
      have e2 : 1 + t = t + 1 := by omega
      rw [e2]
      exact hpre (t + 1) (by omega)
    · have e : 1 + i = i + 1 := by omega
      rw [e]
      exact hbad

/-- Claim C6, amended, witness: a 400 create response is returned, not
raised; a 500 on advance call 1 aborts planning with the raised error. -/
theorem claimC6_amended_witness :
    create_query_job { status := 400, body := "Bad request" } = .ok ("Bad request", true) ∧
    download_query_data env0 20000 10000 4 oracleBad =
      .error (PlanExit.advanceError "500:Something went wrong to get batch locators") :=
  ⟨claimC6_amended.1 { status := 400, body := "Bad request" },
   claimC6_amended.2 env0 20000 10000 4 oracleBad 1 (by decide) (by decide) (by decide)
     (by decide) (by decide)⟩

/-- Counting a locator in a mapped range: one occurrence when the index is in
range and the locator function is injective there. -/
theorem count_map_range_eq_one (L : Nat → String) :
    ∀ (n j : Nat), j < n → (∀ t, t < n → L t = L j → t = j) →
    ((List.range n).map (fun t => some (L t))).count (some (L j)) = 1 := by
  intro n
  induction n with
  | zero => intro j hj; omega
  | succ n ih =>
    intro j hj hinj
    rw [List.range_succ, List.map_append, List.count_append]
    rcases Nat.lt_succ_iff_lt_or_eq.mp hj with h | h
    · rw [ih j h (fun t ht => hinj t (by omega))]
      have hne : L n ≠ L j := fun he => by
        have := hinj n (by omega) he
        omega
      have hz : List.count (some (L j)) [some (L n)] = 0 := by
        rw [List.count_eq_zero]
        simp only [List.mem_singleton, Option.some.injEq]
        exact fun he => hne he.symm
      rw [List.map_singleton, hz]
    · subst h
      have hzero : ((List.range j).map (fun t => some (L t))).count (some (L j)) = 0 := by
        rw [List.count_eq_zero]
        intro hmem
        rw [List.mem_map] at hmem
        obtain ⟨t, ht, he⟩ := hmem
        rw [List.mem_range] at ht
        have : t = j := hinj t (by omega) (by simpa using he)
        omega
      rw [hzero]
      simp

/-- Counting a locator in a mapped range: zero occurrences when the locator
differs from every entry. -/
theorem count_map_range_eq_zero (L : Nat → String) (n j : Nat)
    (h : ∀ t, t < n → L t ≠ L j) :
    ((List.range n).map (fun t => some (L t))).count (some (L j)) = 0 := by
  rw [List.count_eq_zero]
  intro hmem
  rw [List.mem_map] at hmem
  obtain ⟨t, ht, he⟩ := hmem
  rw [List.mem_range] at ht
  exact h t ht (by simpa using he)

/-- Claim C7, counterexample: with `recordCount = 20000`, `batchSize = 10000`
and distinct locators `L0`, `L1`, the cursor `L0` returned by advance call 0
is used as input twice — once by advance call 1 and once by batch 2's fetch —
and the cursor `L1` returned by the final advance call is never used, so "each
cursor is used as input to exactly one subsequent advance or fetch call" fails
in both directions. -/
theorem claimC7_counterexample :
    (download_query_data env0 20000 10000 4 oracleL).toOption.map
      (fun p => (cursorUses p.1 p.2 "L0", cursorUses p.1 p.2 "L1")) = some (2, 0) := by
  decide

/-- Claim C7, amended: in a successful planning run with pairwise distinct
locators, every cursor returned by an advance call other than the last is
used as input to exactly one later advance call and exactly one fetch call
(two uses in total: the planner both passes it to the next advance call and
stores it as the next batch's `batch_start`), while the cursor returned by
the final advance call is never used at all. -/
theorem claimC7_amended (env : PlanEnv) (rc bs cpu : Nat) (oracle : Nat → AdvanceResp)
    (hrc : 0 < rc) (hbs : 0 < bs)
    (hok : ∀ i, (oracle i).status = 200 ∨ (oracle i).status = 201)
    (hinj : ∀ a, a < (rc + bs - 1) / bs → ∀ b, b < (rc + bs - 1) / bs →
      (oracle a).locator = (oracle b).locator → a = b) :
    ∃ (lots : List Batch) (trace : List AdvanceCall),
      download_query_data env rc bs cpu oracle = .ok (lots, trace) ∧
      lots.length = (rc + bs - 1) / bs ∧
      trace.length = lots.length ∧
      (∀ j, j + 1 < lots.length →
        (advanceInputs trace).count (some ((oracle j).locator)) = 1 ∧
        (fetchInputs lots).count (some ((oracle j).locator)) = 1) ∧
      ((advanceInputs trace).count (some ((oracle (lots.length - 1)).locator)) = 0 ∧
       (fetchInputs lots).count (some ((oracle (lots.length - 1)).locator)) = 0) := by
  have hN : (rc - 1) / bs + 1 = (rc + bs - 1) / bs := ceil_batches rc bs hrc hbs
  refine ⟨_, _, download_query_data_closed env rc bs cpu oracle hrc hbs hok,
    by simp [hN], by simp, ?_, ?_⟩
  all_goals
    simp only [advanceInputs, fetchInputs, List.map_cons, List.map_map, List.length_cons,
      List.length_map, List.length_range, Nat.add_sub_cancel]
  · intro j hj
    have hj' : j < (rc - 1) / bs := by omega
    constructor
    · rw [List.count_cons_of_ne (by simp)]
      rw [show (List.map (AdvanceCall.locator ∘ fun j =>
          AdvanceCall.mk (some ((oracle j).locator)) bs) (List.range ((rc - 1) / bs))) =
          (List.range ((rc - 1) / bs)).map (fun t => some ((oracle t).locator)) from rfl]
      exact count_map_range_eq_one _ _ j hj'
        (fun t ht he => hinj t (by omega) j (by omega) he)
    · rw [List.count_cons_of_ne (by simp [fetchLocatorParam, mkPlanBatch])]
      rw [show (List.map (fetchLocatorParam ∘ fun j =>
          mkPlanBatch env (j + 2) bs (some ((oracle j).locator))) (List.range ((rc - 1) / bs))) =
          (List.range ((rc - 1) / bs)).map (fun t => some ((oracle t).locator)) from rfl]
      exact count_map_range_eq_one _ _ j hj'
        (fun t ht he => hinj t (by omega) j (by omega) he)
  · constructor
    · rw [List.count_cons_of_ne (by simp)]
      rw [show (List.map (AdvanceCall.locator ∘ fun j =>
          AdvanceCall.mk (some ((oracle j).locator)) bs) (List.range ((rc - 1) / bs))) =
          (List.range ((rc - 1) / bs)).map (fun t => some ((oracle t).locator)) from rfl]
      refine count_map_range_eq_zero (fun t => (oracle t).locator) ((rc - 1) / bs)
        ((rc - 1) / bs) (fun t ht he => ?_)
      have := hinj t (by omega) ((rc - 1) / bs) (by omega) he
      omega
    · rw [List.count_cons_of_ne (by simp [fetchLocatorParam, mkPlanBatch])]
      rw [show (List.map (fetchLocatorParam ∘ fun j =>
          mkPlanBatch env (j + 2) bs (some ((oracle j).locator))) (List.range ((rc - 1) / bs))) =
          (List.range ((rc - 1) / bs)).map (fun t => some ((oracle t).locator)) from rfl]
      refine count_map_range_eq_zero (fun t => (oracle t).locator) ((rc - 1) / bs)
        ((rc - 1) / bs) (fun t ht he => ?_)
      have := hinj t (by omega) ((rc - 1) / bs) (by omega) he
      omega

/-- Claim C7, amended, witness: two batches, `L0` used twice, `L1` unused. -/
theorem claimC7_amended_witness :
    ∃ (lots : List Batch) (trace : List AdvanceCall),
      download_query_data env0 20000 10000 4 oracleL = .ok (lots, trace) ∧
      lots.length = (20000 + 10000 - 1) / 10000 ∧
      trace.length = lots.length ∧
      (∀ j, j + 1 < lots.length →
        (advanceInputs trace).count (some ((oracleL j).locator)) = 1 ∧
        (fetchInputs lots).count (some ((oracleL j).locator)) = 1) ∧
      ((advanceInputs trace).count (some ((oracleL (lots.length - 1)).locator)) = 0 ∧
       (fetchInputs lots).count (some ((oracleL (lots.length - 1)).locator)) = 0) :=
  claimC7_amended env0 20000 10000 4 oracleL (by decide) (by decide) (fun i => Or.inl rfl)
    (by decide)

/-! ## Ingest-uploader lemmas -/

/-- When the upsert validation cannot fire, the per-chunk loop runs to the end
of the chunk list, producing the closed-form results and events. -/
theorem ingestLoop_ok (object_name operation : String) (ext : Option String) (version : String)
    (creates : Nat → CreateResp) (uploads : Nat → HttpResp) (finalizes : Nat → Nat)
    (hval : ¬(operation = "upsert" ∧ (ext = none ∨ ext = some ""))) :
    ∀ (fps : List String) (i : Nat) (acc : List ChunkResult) (evs : List Ev),
    ingestLoop object_name operation ext version creates uploads finalizes fps i acc evs =
      (.ok (acc ++ ingestResultsFrom creates uploads finalizes version fps i),
       evs ++ ingestEvsFrom object_name uploads fps i) := by
  intro fps
  induction fps with
  | nil =>
    intro i acc evs
    simp [ingestLoop, ingestResultsFrom, ingestEvsFrom]
  | cons fp rest ih =>
    intro i acc evs
    rw [ingestLoop]
    simp only [create_ingest_job, if_neg hval]
    rw [ih]
    simp [ingestResultsFrom, ingestEvsFrom, load_ingest_job_data, List.append_assoc]

/-- `ingestResultsFrom` yields one result per chunk file. -/
theorem ingestResultsFrom_length (creates : Nat → CreateResp) (uploads : Nat → HttpResp)
    (finalizes : Nat → Nat) (version : String) :
    ∀ (fps : List String) (i : Nat),
    (ingestResultsFrom creates uploads finalizes version fps i).length = fps.length := by
  intro fps
  induction fps with
  | nil => intro i; rfl
  | cons fp rest ih =>
    intro i
    simp [ingestResultsFrom, ih]

/-- Element `j` of `ingestResultsFrom` is the record `load_ingest_job_data`
builds for chunk `i + j`. -/
theorem ingestResultsFrom_get (creates : Nat → CreateResp) (uploads : Nat → HttpResp)
    (finalizes : Nat → Nat) (version : String) :
    ∀ (fps : List String) (i j : Nat)
      (hj : j < (ingestResultsFrom creates uploads finalizes version fps i).length)
      (hjf : j < fps.length),
    (ingestResultsFrom creates uploads finalizes version fps i).get ⟨j, hj⟩ =
      (load_ingest_job_data (creates (i + j)).id (fps.get ⟨j, hjf⟩) version
        (uploads (i + j)) (finalizes (i + j))).1 := by
  intro fps
  induction fps with
  | nil => intro i j hj hjf; simp at hjf
  | cons fp rest ih =>
    intro i j hj hjf
    cases j with
    | zero => simp [ingestResultsFrom]
    | succ j =>
      have hcons : ingestResultsFrom creates uploads finalizes version (fp :: rest) i =
          (load_ingest_job_data (creates i).id fp version (uploads i) (finalizes i)).1 ::
            ingestResultsFrom creates uploads finalizes version rest (i + 1) := rfl
      have hj2 : j < (ingestResultsFrom creates uploads finalizes version rest (i + 1)).length := by
        have h2 := hj
        rw [hcons, List.length_cons] at h2
        omega
      have step : (ingestResultsFrom creates uploads finalizes version (fp :: rest) i).get
          ⟨j + 1, hj⟩ =
          (ingestResultsFrom creates uploads finalizes version rest (i + 1)).get ⟨j, hj2⟩ := by
        simp only [List.get_eq_getElem, hcons, List.getElem_cons_succ]
      rw [step, ih (i + 1) j hj2 (by simpa using hjf)]
      have e : i + 1 + j = i + (j + 1) := by omega
      rw [e]
      rfl

/-- The event list produced by the per-chunk loop always extends the events
accumulated so far. -/
theorem ingestLoop_evs_prefix (object_name operation : String) (ext : Option String)
    (version : String) (creates : Nat → CreateResp) (uploads : Nat → HttpResp)
    (finalizes : Nat → Nat) :
    ∀ (fps : List String) (i : Nat) (acc : List ChunkResult) (evs : List Ev),
    ∃ extra, (ingestLoop object_name operation ext version creates uploads finalizes
      fps i acc evs).2 = evs ++ extra := by
  intro fps
  induction fps with
  | nil =>
    intro i acc evs
    exact ⟨[], by simp [ingestLoop]⟩
  | cons fp rest ih =>
    intro i acc evs
    rw [ingestLoop]
    cases hc : create_ingest_job object_name operation ext (creates i) with
    | error e => exact ⟨[], by simp⟩
    | ok pr =>
      obtain ⟨jid, evC⟩ := pr
      obtain ⟨extra, hx⟩ := ih (i + 1)
        (acc ++ [(load_ingest_job_data jid fp version (uploads i) (finalizes i)).1])
        (evs ++ evC ++ (load_ingest_job_data jid fp version (uploads i) (finalizes i)).2)
      exact ⟨evC ++ (load_ingest_job_data jid fp version (uploads i) (finalizes i)).2 ++ extra,
        by rw [hx]; simp [List.append_assoc]⟩

/-- Claim C8, counterexample: an upsert with no external-id field aborts, and
while zero HTTP calls were issued, chunking has already run — the `Ev.chunk`
event precedes the failure and the chunk file `c0.csv` sits in the working
directory — contradicting "before any chunking is performed ... no chunk
files are produced". -/
theorem claimC8_counterexample :
    (ingest_job_data_batches "Account" "Upsert" none none "/tmp" (true, ["stale.csv"])
      ftOne createsJ uploadsMix finalizes200 "53.0").1 =
      .error "external Id field name must be provided when performing upsert." ∧
    (ingest_job_data_batches "Account" "Upsert" none none "/tmp" (true, ["stale.csv"])
      ftOne createsJ uploadsMix finalizes200 "53.0").2.1 =
      [Ev.rmtree "/tmp/Account", Ev.mkdir "/tmp/Account", Ev.chunk ["c0.csv"]] ∧
    (ingest_job_data_batches "Account" "Upsert" none none "/tmp" (true, ["stale.csv"])
      ftOne createsJ uploadsMix finalizes200 "53.0").2.2 = (true, ["c0.csv"]) := by
  exact ⟨rfl, by decide, by decide⟩

/-- Claim C8, amended: an upsert request without an external-id field does
fail with the configuration `RuntimeError` before any HTTP call is issued
(the event trace contains no HTTP event), but only after the working
directory was prepared and chunking ran: the chunk files are already produced
and present in the working directory when the first `create_ingest_job` call
raises. -/
theorem claimC8_amended (object_name operation : String) (ext : Option String)
    (working_directory : Option String) (tmpdir : String) (wdState : Bool × List String)
    (ft : FileTask) (creates : Nat → CreateResp) (uploads : Nat → HttpResp)
    (finalizes : Nat → Nat) (version : String)
    (hop : (pyLower operation) = "upsert") (hext : ext = none ∨ ext = some "")
    (hs : ft.status = "success") (hne : ft.payload ≠ []) :
    (ingest_job_data_batches object_name operation ext working_directory tmpdir wdState ft
      creates uploads finalizes version).1 =
      .error "external Id field name must be provided when performing upsert." ∧
    (ingest_job_data_batches object_name operation ext working_directory tmpdir wdState ft
      creates uploads finalizes version).2.1.filter evIsHttp = [] ∧
    Ev.chunk ft.payload ∈ (ingest_job_data_batches object_name operation ext working_directory
      tmpdir wdState ft creates uploads finalizes version).2.1 ∧
    (ingest_job_data_batches object_name operation ext working_directory tmpdir wdState ft
      creates uploads finalizes version).2.2 = (true, ft.payload) := by
  obtain ⟨fp, rest, hfp⟩ := List.exists_cons_of_ne_nil hne
  simp only [ingest_job_data_batches, prepare_working_directory]
  rw [if_neg (by simp [hs])]
  rw [hfp, ingestLoop]
  simp only [create_ingest_job, if_pos (And.intro hop hext)]
  obtain ⟨we, wc⟩ := wdState
  cases we <;> simp [evIsHttp, hfp]

/-- Claim C8, amended, witness: `Upsert` (lower-cased to `upsert`) with no
external-id field, one chunk file, a stale working directory. -/
theorem claimC8_amended_witness :
    (ingest_job_data_batches "Account" "Upsert" none none "/tmp" (true, ["stale.csv"])
      ftOne createsJ uploadsMix finalizes200 "53.0").1 =
      .error "external Id field name must be provided when performing upsert." ∧
    (ingest_job_data_batches "Account" "Upsert" none none "/tmp" (true, ["stale.csv"])
      ftOne createsJ uploadsMix finalizes200 "53.0").2.1.filter evIsHttp = [] ∧
    Ev.chunk ftOne.payload ∈ (ingest_job_data_batches "Account" "Upsert" none none "/tmp"
      (true, ["stale.csv"]) ftOne createsJ uploadsMix finalizes200 "53.0").2.1 ∧
    (ingest_job_data_batches "Account" "Upsert" none none "/tmp" (true, ["stale.csv"])
      ftOne createsJ uploadsMix finalizes200 "53.0").2.2 = (true, ftOne.payload) :=
  claimC8_amended "Account" "Upsert" none none "/tmp" (true, ["stale.csv"]) ftOne
    createsJ uploadsMix finalizes200 "53.0" (by decide) (Or.inl rfl) rfl (by decide)

/-- Claim C9: when chunking succeeded and the upsert validation cannot fire,
the uploader drives create, upload, finalize for each chunk in order — the
PATCH is always issued, with state `UploadComplete` exactly when the upload
returned 200/201 and `Aborted` otherwise, even for failed uploads — and
returns exactly one result record per chunk, in chunk order, carrying the
finalize status code and the outcome message. -/
theorem claimC9 (object_name operation : String) (ext : Option String)
    (working_directory : Option String) (tmpdir : String) (wdState : Bool × List String)
    (ft : FileTask) (creates : Nat → CreateResp) (uploads : Nat → HttpResp)
    (finalizes : Nat → Nat) (version : String)
    (hval : ¬((pyLower operation) = "upsert" ∧ (ext = none ∨ ext = some "")))
    (hft : ft.status = "success") :
    ∃ results : List ChunkResult,
      (ingest_job_data_batches object_name operation ext working_directory tmpdir wdState ft
        creates uploads finalizes version).1 = .ok results ∧
      results.length = ft.payload.length ∧
      (∀ j (hj : j < results.length) (hjf : j < ft.payload.length),
        (results.get ⟨j, hj⟩).status_code = finalizes j ∧
        (results.get ⟨j, hj⟩).file_path = ft.payload.get ⟨j, hjf⟩ ∧
        (results.get ⟨j, hj⟩).state =
          (if (uploads j).status = 200 ∨ (uploads j).status = 201
           then "UploadComplete" else "Aborted") ∧
        (results.get ⟨j, hj⟩).message =
          (if (uploads j).status ≠ 200 ∧ (uploads j).status ≠ 201 then (uploads j).body
           else "Batch: " ++ ft.payload.get ⟨j, hjf⟩ ++ " loaded.")) ∧
      (ingest_job_data_batches object_name operation ext working_directory tmpdir wdState ft
        creates uploads finalizes version).2.1 =
        (if wdState.1 then [Ev.rmtree (working_directory.getD (tmpdir ++ "/" ++ object_name))]
         else []) ++
        Ev.mkdir (working_directory.getD (tmpdir ++ "/" ++ object_name)) ::
        Ev.chunk ft.payload :: ingestEvsFrom object_name uploads ft.payload 0 := by
  have hrun : ingest_job_data_batches object_name operation ext working_directory tmpdir
      wdState ft creates uploads finalizes version =
      (.ok (ingestResultsFrom creates uploads finalizes version ft.payload 0),
       ((if wdState.1 then [Ev.rmtree (working_directory.getD (tmpdir ++ "/" ++ object_name))]
         else []) ++
        Ev.mkdir (working_directory.getD (tmpdir ++ "/" ++ object_name)) ::
        Ev.chunk ft.payload :: ingestEvsFrom object_name uploads ft.payload 0),
       (true, ft.payload)) := by
    simp only [ingest_job_data_batches, prepare_working_directory]
    rw [if_neg (by simp [hft])]
    rw [ingestLoop_ok object_name (pyLower operation) ext version creates uploads finalizes hval
      ft.payload 0 [] _]
    simp [List.append_assoc]
  refine ⟨ingestResultsFrom creates uploads finalizes version ft.payload 0,
    by rw [hrun], ingestResultsFrom_length creates uploads finalizes version ft.payload 0,
    ?_, by rw [hrun]⟩
  intro j hj hjf
  rw [ingestResultsFrom_get creates uploads finalizes version ft.payload 0 j hj hjf]
  simp only [Nat.zero_add]
  refine ⟨rfl, rfl, rfl, rfl⟩

/-- Claim C9, witness: two chunks, the first upload succeeding with 201, the
second failing with 400 (so its job is finalized as `Aborted`). -/
theorem claimC9_witness :
    ∃ results : List ChunkResult,
      (ingest_job_data_batches "Account" "insert" none none "/tmp" (false, []) ftTwo
        createsJ uploadsMix finalizes200 "53.0").1 = .ok results ∧
      results.length = ftTwo.payload.length ∧
      (∀ j (hj : j < results.length) (hjf : j < ftTwo.payload.length),
        (results.get ⟨j, hj⟩).status_code = finalizes200 j ∧
        (results.get ⟨j, hj⟩).file_path = ftTwo.payload.get ⟨j, hjf⟩ ∧
        (results.get ⟨j, hj⟩).state =
          (if (uploadsMix j).status = 200 ∨ (uploadsMix j).status = 201
           then "UploadComplete" else "Aborted") ∧
        (results.get ⟨j, hj⟩).message =
          (if (uploadsMix j).status ≠ 200 ∧ (uploadsMix j).status ≠ 201 then (uploadsMix j).body
           else "Batch: " ++ ftTwo.payload.get ⟨j, hjf⟩ ++ " loaded.")) ∧
      (ingest_job_data_batches "Account" "insert" none none "/tmp" (false, []) ftTwo
        createsJ uploadsMix finalizes200 "53.0").2.1 =
        (if (false, ([] : List String)).1
         then [Ev.rmtree ((none : Option String).getD ("/tmp" ++ "/" ++ "Account"))] else []) ++
        Ev.mkdir ((none : Option String).getD ("/tmp" ++ "/" ++ "Account")) ::
        Ev.chunk ftTwo.payload :: ingestEvsFrom "Account" uploadsMix ftTwo.payload 0 :=
  claimC9 "Account" "insert" none none "/tmp" (false, []) ftTwo createsJ uploadsMix
    finalizes200 "53.0" (by decide) rfl

/-- Claim C10: with the default working directory `<tmpdir>/<object_name>`,
the ingest batch operation first deletes that directory recursively whenever
it already exists as a directory — destroying whatever it contained — and
recreates it empty, and these two file-system effects precede the chunking
step and every HTTP call of the run (which all sit in the remaining event
suffix). -/
theorem claimC10 (object_name operation : String) (ext : Option String) (tmpdir : String)
    (wdState : Bool × List String) (ft : FileTask) (creates : Nat → CreateResp)
    (uploads : Nat → HttpResp) (finalizes : Nat → Nat) (version : String) :
    prepare_working_directory (tmpdir ++ "/" ++ object_name) wdState =
      ((true, []),
       (if wdState.1 then [Ev.rmtree (tmpdir ++ "/" ++ object_name)] else []) ++
         [Ev.mkdir (tmpdir ++ "/" ++ object_name)]) ∧
    ∃ rest, (ingest_job_data_batches object_name operation ext none tmpdir wdState ft
        creates uploads finalizes version).2.1 =
      (if wdState.1 then [Ev.rmtree (tmpdir ++ "/" ++ object_name)] else []) ++
        Ev.mkdir (tmpdir ++ "/" ++ object_name) :: Ev.chunk ft.payload :: rest := by
  refine ⟨rfl, ?_⟩
  simp only [ingest_job_data_batches, prepare_working_directory, Option.getD]
  by_cases hs : ft.status ≠ "success"
  · rw [if_pos hs]
    exact ⟨[], by simp⟩
  · rw [if_neg hs]
    obtain ⟨extra, hx⟩ := ingestLoop_evs_prefix object_name (pyLower operation) ext version
      creates uploads finalizes ft.payload 0 []
      (((if wdState.1 then [Ev.rmtree (tmpdir ++ "/" ++ object_name)] else []) ++
        [Ev.mkdir (tmpdir ++ "/" ++ object_name)]) ++ [Ev.chunk ft.payload])
    refine ⟨extra, ?_⟩
    rw [hx]
    simp [List.append_assoc]

end Ultraloader
